import Mathlib

/-!
Verification of the parameter-building core of the IceFlow notebook UI
(src/notebooks/iceflow/iceflow/ui.py, class IceFlowUI).

Shallow embedding: coordinates are modelled as integers (the source applies
only order comparisons, min/max, and string rendering to them); python
widget state becomes an explicit State record; the fallible operations
return Except / an outcome inductive; calls to the external IceflowClient
collaborator are recorded as explicit events rather than performed.
-/

namespace IceFlow

/-- A polygon vertex: (longitude, latitude), as in the GeoJSON ring
handed over by the draw control. -/
abbrev Point := Int × Int

/-- The failure of the bounding-box computation on an absent/empty ring
(in the source, the tuple unpacking of zip over an empty list raises). -/
inductive UIError where
  | NoGeometryError
  deriving DecidableEq, Repr

/-- Embedding of IceFlowUI.bounding_box (ui.py lines 262-267):
separates the points into x- and y-coordinates and returns
[(min x, min y), (max x, max y)]; on an empty list the unpacking fails. -/
def bounding_box (points : List Point) : Except UIError (Point × Point) :=
  match points with
  | [] => .error .NoGeometryError
  | p :: ps =>
    let x_coordinates := (p :: ps).map Prod.fst
    let y_coordinates := (p :: ps).map Prod.snd
    .ok ((x_coordinates.foldl min p.1, y_coordinates.foldl min p.2),
         (x_coordinates.foldl max p.1, y_coordinates.foldl max p.2))

theorem foldl_min_le_init (xs : List Int) (a : Int) : xs.foldl min a ≤ a := by
  induction xs generalizing a with
  | nil => exact le_refl a
  | cons x xs ih =>
    calc (x :: xs).foldl min a = xs.foldl min (min a x) := rfl
    _ ≤ min a x := ih (min a x)
    _ ≤ a := min_le_left a x

theorem foldl_min_le_mem (xs : List Int) (a x : Int) (hx : x ∈ xs) :
    xs.foldl min a ≤ x := by
  induction xs generalizing a with
  | nil => cases hx
  | cons y ys ih =>
    rcases List.mem_cons.mp hx with h | h
    · subst h
      calc (x :: ys).foldl min a = ys.foldl min (min a x) := rfl
      _ ≤ min a x := foldl_min_le_init ys (min a x)
      _ ≤ x := min_le_right a x
    · exact ih (min a y) h

theorem init_le_foldl_max (xs : List Int) (a : Int) : a ≤ xs.foldl max a := by
  induction xs generalizing a with
  | nil => exact le_refl a
  | cons x xs ih =>
    calc a ≤ max a x := le_max_left a x
    _ ≤ xs.foldl max (max a x) := ih (max a x)
    _ = (x :: xs).foldl max a := rfl

theorem mem_le_foldl_max (xs : List Int) (a x : Int) (hx : x ∈ xs) :
    x ≤ xs.foldl max a := by
  induction xs generalizing a with
  | nil => cases hx
  | cons y ys ih =>
    rcases List.mem_cons.mp hx with h | h
    · subst h
      calc x ≤ max a x := le_max_right a x
      _ ≤ ys.foldl max (max a x) := init_le_foldl_max ys (max a x)
      _ = (x :: ys).foldl max a := rfl
    · exact ih (max a y) h

/-- A calendar date, as carried by the date-range slider values
(their .date() component is all build_parameters uses). -/
structure Date where
  year : Nat
  month : Nat
  day : Nat
  deriving DecidableEq, Repr

/-- Zero-pad a number to two digits, as strftime %m / %d do. -/
def pad2 (n : Nat) : String :=
  if n < 10 then "0" ++ toString n else toString n

/-- Zero-pad a number to four digits, as strftime %Y does. -/
def pad4 (n : Nat) : String :=
  if n < 10 then "000" ++ toString n
  else if n < 100 then "00" ++ toString n
  else if n < 1000 then "0" ++ toString n
  else toString n

/-- Embedding of date.strftime with format string %Y-%m-%d. -/
def Date.strftimeYmd (d : Date) : String :=
  pad4 d.year ++ "-" ++ pad2 d.month ++ "-" ++ pad2 d.day

/-- The parameter dictionary produced by build_parameters; the two
optional keys of the python dict become Option fields (some v means
the key is present with value v). -/
structure Params where
  start : String
  end_ : String
  bbox : String
  datasets : List String
  itrf : Option String
  epoch : Option String
  deriving DecidableEq, Repr

/-- The widget / map state of an IceFlowUI instance that
build_parameters and the dispatch operations read or write.
last_draw is the first coordinate ring of the drawn geometry
(dc.last_draw geometry coordinates index 0), none when nothing is drawn;
itrf is a Dropdown over python None and three ITRF strings, hence an
Option String; datasets_iceflow is the scratch list build_parameters
stores on self; current_projection and credentials stand for the stored
fields the operation never touches. -/
structure State where
  last_draw : Option (List Point)
  dates_range : Date × Date
  dataset : List String
  itrf : Option String
  epoch : String
  is2 : String
  datasets_iceflow : List String
  current_projection : String
  credentials : Option (String × String × String)
  deriving DecidableEq, Repr

/-- The three ways a build_parameters call can end in the source:
returning None after printing the no-selection message, propagating an
exception raised below it, or returning a parameter dictionary. -/
inductive BuildOutcome where
  | noSelection
  | raised (e : UIError)
  | params (p : Params)
  deriving DecidableEq, Repr

/-- Embedding of IceFlowUI.build_parameters (ui.py lines 269-299).
It first resets self.datasets_iceflow to [] (line 273), then guards on
the drawn geometry (returning None when absent), computes the bounding
box of the first coordinate ring and formats it, formats the date range,
assembles the dataset list (primary selection in order, then the ICESat-2
choice unless it is the sentinel string None), and adds the itrf / epoch
keys only when their guards pass. -/
def build_parameters (s : State) : State × BuildOutcome :=
  let s := { s with datasets_iceflow := [] }
  match s.last_draw with
  | none => (s, .noSelection)
  | some ring =>
    match bounding_box ring with
    | .error e => (s, .raised e)
    | .ok coords =>
      let bbox := toString coords.1.1 ++ "," ++ toString coords.1.2 ++ ","
                  ++ toString coords.2.1 ++ "," ++ toString coords.2.2
      let start := s.dates_range.1.strftimeYmd
      let end_ := s.dates_range.2.strftimeYmd
      let ITRF := s.itrf
      let epoch := s.epoch
      let datasets_iceflow :=
        s.dataset ++ (if s.is2 ≠ "None" then [s.is2] else [])
      let s := { s with datasets_iceflow := datasets_iceflow }
      let params : Params :=
        { start := start
          end_ := end_
          bbox := bbox
          datasets := datasets_iceflow
          itrf := if ITRF ≠ some "None" ∧ ITRF ≠ none then ITRF else none
          epoch := if epoch ≠ "None" ∧ epoch ≠ "" then some epoch else none }
      (s, .params params)

/-- Claim C2: for every non-empty sequence of points, bounding_box returns
a box ((min-x, min-y), (max-x, max-y)) whose minimum corner is ≤ its
maximum corner component-wise, and every input point lies within the box
(degenerate zero-area boxes permitted). -/
theorem bounding_box_spec (p : Point) (ps : List Point) :
    ∃ lo hi : Point, bounding_box (p :: ps) = .ok (lo, hi) ∧
      lo.1 ≤ hi.1 ∧ lo.2 ≤ hi.2 ∧
      ∀ q ∈ p :: ps, lo.1 ≤ q.1 ∧ q.1 ≤ hi.1 ∧ lo.2 ≤ q.2 ∧ q.2 ≤ hi.2 := by
  refine ⟨_, _, rfl, ?_, ?_, ?_⟩
  · exact le_trans (foldl_min_le_init _ p.1) (init_le_foldl_max _ p.1)
  · exact le_trans (foldl_min_le_init _ p.2) (init_le_foldl_max _ p.2)
  · intro q hq
    have hx : q.1 ∈ ((p :: ps).map Prod.fst) := List.mem_map_of_mem Prod.fst hq
    have hy : q.2 ∈ ((p :: ps).map Prod.snd) := List.mem_map_of_mem Prod.snd hq
    exact ⟨foldl_min_le_mem _ p.1 q.1 hx, mem_le_foldl_max _ p.1 q.1 hx,
           foldl_min_le_mem _ p.2 q.2 hy, mem_le_foldl_max _ p.2 q.2 hy⟩

/-- Claim C4: bounding_box on an empty geometry fails with NoGeometryError
(the absent-geometry case never reaches it: build_parameters guards it),
and on any non-empty geometry it does not fail. -/
theorem bounding_box_empty_fails :
    bounding_box [] = .error .NoGeometryError ∧
    ∀ (p : Point) (ps : List Point), ∃ bb, bounding_box (p :: ps) = .ok bb := by
  exact ⟨rfl, fun p ps => ⟨_, rfl⟩⟩

/-- The scratch field self.datasets_iceflow is reset before it is read,
so its incoming value never influences a build_parameters call. -/
theorem build_parameters_scratch_irrelevant (s : State) (l : List String) :
    build_parameters { s with datasets_iceflow := l } = build_parameters s := by
  cases s
  rfl

/-- A build_parameters call only ever rewrites the scratch field of the
state; every other stored field of the resulting state is the input's. -/
theorem build_parameters_state (s : State) :
    ∃ l, (build_parameters s).1 = { s with datasets_iceflow := l } := by
  cases s with
  | mk g dr ds it ep i2 l pr cr =>
    cases g with
    | none => exact ⟨[], rfl⟩
    | some ring =>
      cases ring with
      | nil => exact ⟨[], rfl⟩
      | cons q qs => exact ⟨_, rfl⟩

/-- Claim C3: with no drawn geometry, build_parameters reports the
no-selection failure (the printed message plus None return that the spec
names NoSelectionError) and produces no parameters, whatever the date
range, dataset, itrf, epoch and secondary-dataset fields hold. -/
theorem build_parameters_no_selection (s : State) (h : s.last_draw = none) :
    (build_parameters s).2 = .noSelection := by
  cases s with
  | mk g dr ds it ep i2 l pr cr =>
    cases g with
    | none => rfl
    | some ring => simp at h

/-- Concrete ring of the worked example in the spec. -/
def sampleRing : List Point := [(-10, 60), (-10, 65), (0, 65), (0, 60)]

/-- A state with no drawn geometry; the scratch list is deliberately
stale so that overwriting it is observable. -/
def emptyState : State :=
  { last_draw := none
    dates_range := (⟨2015, 1, 1⟩, ⟨2015, 12, 31⟩)
    dataset := ["ILATM1B"]
    itrf := some "ITRF2014"
    epoch := ""
    is2 := "None"
    datasets_iceflow := ["STALE"]
    current_projection := "north"
    credentials := none }

/-- The same state after the example ring has been drawn. -/
def drawnState : State := { emptyState with last_draw := some sampleRing }

/-- Witness for claim C3 at a concrete no-geometry state. -/
theorem build_parameters_no_selection_witness :
    emptyState.last_draw = none ∧ (build_parameters emptyState).2 = .noSelection :=
  ⟨rfl, build_parameters_no_selection emptyState rfl⟩

/-- Claim C5: build_parameters is idempotent; a second call on the state
left behind by the first produces the identical outcome. -/
theorem build_parameters_idempotent (s : State) :
    (build_parameters (build_parameters s).1).2 = (build_parameters s).2 := by
  obtain ⟨l, h⟩ := build_parameters_state s
  rw [h, build_parameters_scratch_irrelevant]

/-- Counterexample to claim C6 as stated: build_parameters does change a
stored field of the component, the datasets_iceflow scratch list. -/
theorem build_parameters_mutates_scratch :
    ((build_parameters emptyState).1).datasets_iceflow ≠ emptyState.datasets_iceflow := by
  decide

/-- Claim C6 (amended): build_parameters leaves every stored field
unchanged except the datasets_iceflow scratch list, which it overwrites. -/
theorem build_parameters_frame (s : State) :
    (build_parameters s).1.last_draw = s.last_draw ∧
    (build_parameters s).1.dates_range = s.dates_range ∧
    (build_parameters s).1.dataset = s.dataset ∧
    (build_parameters s).1.itrf = s.itrf ∧
    (build_parameters s).1.epoch = s.epoch ∧
    (build_parameters s).1.is2 = s.is2 ∧
    (build_parameters s).1.current_projection = s.current_projection ∧
    (build_parameters s).1.credentials = s.credentials := by
  obtain ⟨l, h⟩ := build_parameters_state s
  rw [h]
  exact ⟨rfl, rfl, rfl, rfl, rfl, rfl, rfl, rfl⟩

/-- Claim C7: with a drawn geometry, the output carries the itrf key iff
the itrf value is neither the sentinel string None nor absent, and the
epoch key iff the epoch value is neither the sentinel string None nor
the empty string. -/
theorem build_parameters_optional_keys (s : State) (q : Point) (qs : List Point)
    (h : s.last_draw = some (q :: qs)) :
    ∃ p : Params, (build_parameters s).2 = .params p ∧
      (p.itrf ≠ none ↔ (s.itrf ≠ some "None" ∧ s.itrf ≠ none)) ∧
      (p.epoch ≠ none ↔ (s.epoch ≠ "None" ∧ s.epoch ≠ "")) := by
  cases s with
  | mk g dr ds it ep i2 l pr cr =>
    simp only [State.last_draw] at h
    subst h
    refine ⟨_, rfl, ?_, ?_⟩
    · by_cases hc : it ≠ some "None" ∧ it ≠ none
      · simp only [if_pos hc]
        exact ⟨fun _ => hc, fun _ => hc.2⟩
      · simp only [if_neg hc]
        exact iff_of_false (by simp) hc
    · by_cases hc : ep ≠ "None" ∧ ep ≠ ""
      · simp only [if_pos hc]
        exact ⟨fun _ => hc, fun _ => Option.some_ne_none ep⟩
      · simp only [if_neg hc]
        exact iff_of_false (by simp) hc

/-- Witness for claim C7 at the concrete drawn state. -/
theorem build_parameters_optional_keys_witness :
    drawnState.last_draw = some ((-10, 60) :: [(-10, 65), (0, 65), (0, 60)]) ∧
    ∃ p : Params, (build_parameters drawnState).2 = .params p ∧
      (p.itrf ≠ none ↔ (drawnState.itrf ≠ some "None" ∧ drawnState.itrf ≠ none)) ∧
      (p.epoch ≠ none ↔ (drawnState.epoch ≠ "None" ∧ drawnState.epoch ≠ "")) :=
  ⟨rfl, build_parameters_optional_keys drawnState (-10, 60)
    [(-10, 65), (0, 65), (0, 60)] rfl⟩

/-- The exact dictionary the spec's worked example expects. -/
def exampleParams : Params :=
  { start := "2015-01-01"
    end_ := "2015-12-31"
    bbox := "-10,60,0,65"
    datasets := ["ILATM1B"]
    itrf := some "ITRF2014"
    epoch := none }

/-- Claim C8: on the spec's concrete input the output is exactly
start 2015-01-01, end 2015-12-31, bbox -10,60,0,65, datasets [ILATM1B],
itrf ITRF2014, and no epoch key. -/
theorem build_parameters_example :
    (build_parameters drawnState).2 = .params exampleParams := by
  decide

/-- Claim C9: with a drawn geometry, the datasets field is the primary
selection in order, with the secondary (ICESat-2) choice appended last
exactly when it is not the sentinel string None. -/
theorem build_parameters_datasets (s : State) (q : Point) (qs : List Point)
    (h : s.last_draw = some (q :: qs)) :
    ∃ p : Params, (build_parameters s).2 = .params p ∧
      p.datasets = s.dataset ++ (if s.is2 ≠ "None" then [s.is2] else []) := by
  cases s with
  | mk g dr ds it ep i2 l pr cr =>
    simp only [State.last_draw] at h
    subst h
    exact ⟨_, rfl, rfl⟩

/-- The spec's second worked example: secondary dataset ATL06, itrf absent. -/
def drawnStateATL : State := { drawnState with is2 := "ATL06", itrf := none }

/-- Witness for claim C9 at the concrete ATL06 state. -/
theorem build_parameters_datasets_witness :
    drawnStateATL.last_draw = some ((-10, 60) :: [(-10, 65), (0, 65), (0, 60)]) ∧
    ∃ p : Params, (build_parameters drawnStateATL).2 = .params p ∧
      p.datasets = drawnStateATL.dataset ++
        (if drawnStateATL.is2 ≠ "None" then [drawnStateATL.is2] else []) :=
  ⟨rfl, build_parameters_datasets drawnStateATL (-10, 60)
    [(-10, 65), (0, 65), (0, 60)] rfl⟩

/-- A call made on the external IceflowClient collaborator, with the
parameter value it receives (none stands for the python None that
build_parameters returns on failure). -/
inductive ClientCall where
  | queryCMR (params : Option Params)
  | postDataOrders (params : Option Params)
  deriving DecidableEq, Repr

/-- Observable result of a dispatch operation: the state it leaves,
whether it invoked build_parameters, and the client call it made
(none when an exception escaped before the client was reached). -/
structure DispatchOut where
  state : State
  invokedBuild : Bool
  call : Option ClientCall
  deriving DecidableEq, Repr

/-- Embedding of IceFlowUI.query_cmr (ui.py lines 301-305): when the
params argument is None it is replaced by the build_parameters result
(which may itself be None), and the client's query_cmr is then invoked
with whatever that value is; the unused event argument is dropped. -/
def query_cmr (s : State) (params : Option Params) : DispatchOut :=
  match params with
  | some p => ⟨s, false, some (.queryCMR (some p))⟩
  | none =>
    match build_parameters s with
    | (s', .noSelection) => ⟨s', true, some (.queryCMR none)⟩
    | (s', .raised _) => ⟨s', true, none⟩
    | (s', .params p) => ⟨s', true, some (.queryCMR (some p))⟩

/-- Embedding of IceFlowUI.place_data_orders (ui.py lines 307-311),
identical to query_cmr except that it invokes the client's
post_data_orders operation. -/
def place_data_orders (s : State) (params : Option Params) : DispatchOut :=
  match params with
  | some p => ⟨s, false, some (.postDataOrders (some p))⟩
  | none =>
    match build_parameters s with
    | (s', .noSelection) => ⟨s', true, some (.postDataOrders none)⟩
    | (s', .raised _) => ⟨s', true, none⟩
    | (s', .params p) => ⟨s', true, some (.postDataOrders (some p))⟩

/-- Counterexample to claim C1 as stated: at a concrete no-geometry
state both dispatch operations do invoke the external client, passing
it the None that build_parameters returned. -/
theorem dispatch_invokes_client_without_selection :
    (query_cmr emptyState none).call = some (.queryCMR none) ∧
    (place_data_orders emptyState none).call = some (.postDataOrders none) := by
  decide

/-- Claim C1 (amended): with no drawn geometry, the dispatch operations
do not short-circuit: each still invokes its client operation, forwarding
the absent (None) parameters produced by the failed build_parameters. -/
theorem dispatch_no_selection (s : State) (h : s.last_draw = none) :
    (query_cmr s none).call = some (.queryCMR none) ∧
    (place_data_orders s none).call = some (.postDataOrders none) := by
  cases s with
  | mk g dr ds it ep i2 l pr cr =>
    cases g with
    | none => exact ⟨rfl, rfl⟩
    | some ring => simp at h

/-- Witness for claim C1 (amended) at a concrete no-geometry state. -/
theorem dispatch_no_selection_witness :
    emptyState.last_draw = none ∧
    ((query_cmr emptyState none).call = some (.queryCMR none) ∧
     (place_data_orders emptyState none).call = some (.postDataOrders none)) :=
  ⟨rfl, dispatch_no_selection emptyState rfl⟩

/-- Claim C10: an explicitly supplied parameter object bypasses
build_parameters entirely (the state is untouched and no build happens)
and is forwarded unchanged to the respective client operation. -/
theorem dispatch_explicit_params (s : State) (p : Params) :
    query_cmr s (some p) = ⟨s, false, some (.queryCMR (some p))⟩ ∧
    place_data_orders s (some p) = ⟨s, false, some (.postDataOrders (some p))⟩ :=
  ⟨rfl, rfl⟩

end IceFlow
